import Mathlib

/-!
Verification development for the Sunco Analytics dashboard (src/app.py).

The program is a single-file dashboard: a connection provider
(get_connection), a memoized data loader (load_data), SHA-256 based
credential verification (check_password and its inner helpers), a sidebar
date-range filter with defaulting, a report selector dispatching to four
SQL aggregate queries, and an admin panel that inserts user records.

The embedding below translates each of those pieces into executable Lean
definitions: SQL queries become list-processing functions over record
lists, the database rows become structures, machine-level hashing is the
actual SHA-256 algorithm over Nat with explicit reduction mod 2 ^ 32, and
fallible calls return Option or Except values.
-/

namespace SuncoAnalytics

/-- Calendar date (year, month, day), as compared by SQL date comparison
and by the date-range picker. -/
structure Date where
  year : Nat
  month : Nat
  day : Nat
deriving DecidableEq, Repr

/-- Numeric key giving the lexicographic order on (year, month, day). -/
def Date.toKey (d : Date) : Nat :=
  d.year * 10000 + d.month * 100 + d.day

instance : LE Date := ⟨fun a b => a.toKey ≤ b.toKey⟩

instance (a b : Date) : Decidable (a ≤ b) :=
  inferInstanceAs (Decidable (a.toKey ≤ b.toKey))

/-- A point in time: the launched_products.created_at column is a
timestamp; the queries cast it to a date with a ::date cast, modelled by
the date field, while tod carries the sub-day part. -/
structure Timestamp where
  date : Date
  tod : Nat
deriving DecidableEq, Repr

/-! ## SHA-256 (hashlib.sha256(...).hexdigest() on UTF-8 bytes) -/

/-- Reduce a natural number to a 32-bit word. -/
def w32 (n : Nat) : Nat := n % 4294967296

/-- Right rotation of a 32-bit word by n places. -/
def rotr (n x : Nat) : Nat :=
  w32 ((x >>> n) ||| (x <<< (32 - n)))

/-- Bitwise complement of a 32-bit word. -/
def not32 (x : Nat) : Nat := Nat.xor x 4294967295

/-- SHA-256 choice function. -/
def shaCh (e f g : Nat) : Nat :=
  Nat.xor (Nat.land e f) (Nat.land (not32 e) g)

/-- SHA-256 majority function. -/
def shaMaj (a b c : Nat) : Nat :=
  Nat.xor (Nat.xor (Nat.land a b) (Nat.land a c)) (Nat.land b c)

/-- Small sigma-0 of the message schedule. -/
def sigma0 (x : Nat) : Nat :=
  Nat.xor (Nat.xor (rotr 7 x) (rotr 18 x)) (x >>> 3)

/-- Small sigma-1 of the message schedule. -/
def sigma1 (x : Nat) : Nat :=
  Nat.xor (Nat.xor (rotr 17 x) (rotr 19 x)) (x >>> 10)

/-- Big sigma-0 of the compression function. -/
def bigSigma0 (x : Nat) : Nat :=
  Nat.xor (Nat.xor (rotr 2 x) (rotr 13 x)) (rotr 22 x)

/-- Big sigma-1 of the compression function. -/
def bigSigma1 (x : Nat) : Nat :=
  Nat.xor (Nat.xor (rotr 6 x) (rotr 11 x)) (rotr 25 x)

/-- The 64 SHA-256 round constants. -/
def K256 : List Nat :=
  [1116352408, 1899447441, 3049323471, 3921009573,
   961987163, 1508970993, 2453635748, 2870763221,
   3624381080, 310598401, 607225278, 1426881987,
   1925078388, 2162078206, 2614888103, 3248222580,
   3835390401, 4022224774, 264347078, 604807628,
   770255983, 1249150122, 1555081692, 1996064986,
   2554220882, 2821834349, 2952996808, 3210313671,
   3336571891, 3584528711, 113926993, 338241895,
   666307205, 773529912, 1294757372, 1396182291,
   1695183700, 1986661051, 2177026350, 2456956037,
   2730485921, 2820302411, 3259730800, 3345764771,
   3516065817, 3600352804, 4094571909, 275423344,
   430227734, 506948616, 659060556, 883997877,
   958139571, 1322822218, 1537002063, 1747873779,
   1955562222, 2024104815, 2227730452, 2361852424,
   2428436474, 2756734187, 3204031479, 3329325298]

/-- The eight-word working state of SHA-256. -/
structure Hash8 where
  a : Nat
  b : Nat
  c : Nat
  d : Nat
  e : Nat
  f : Nat
  g : Nat
  h : Nat
deriving DecidableEq, Repr

/-- Initial SHA-256 hash value. -/
def initHash : Hash8 :=
  ⟨1779033703, 3144134277, 1013904242, 2773480762,
   1359893119, 2600822924, 528734635, 1541459225⟩

/-- UTF-8 encoding of one character, as a list of byte values; this is
what password.encode() produces per character in Python. -/
def utf8EncodeChar (ch : Char) : List Nat :=
  let n := ch.toNat
  if n < 0x80 then [n]
  else if n < 0x800 then
    [0xC0 ||| (n >>> 6), 0x80 ||| (Nat.land n 0x3F)]
  else if n < 0x10000 then
    [0xE0 ||| (n >>> 12), 0x80 ||| (Nat.land (n >>> 6) 0x3F),
     0x80 ||| (Nat.land n 0x3F)]
  else
    [0xF0 ||| (n >>> 18), 0x80 ||| (Nat.land (n >>> 12) 0x3F),
     0x80 ||| (Nat.land (n >>> 6) 0x3F), 0x80 ||| (Nat.land n 0x3F)]

/-- UTF-8 bytes of a string, modelling the Python str.encode() call. -/
def utf8Bytes (s : String) : List Nat :=
  s.toList.flatMap utf8EncodeChar

/-- SHA-256 padding: append 0x80, zero bytes to 56 mod 64, then the
original bit length as eight big-endian bytes. -/
def shaPad (msg : List Nat) : List Nat :=
  let bitLen := msg.length * 8
  let zeros := (64 - (msg.length + 9) % 64) % 64
  msg ++ [0x80] ++ List.replicate zeros 0 ++
    (List.range 8).map (fun i => (bitLen >>> (8 * (7 - i))) % 256)

/-- Pack a byte list into big-endian 32-bit words. -/
def bytesToWords : List Nat → List Nat
  | a :: b :: c :: d :: rest =>
      (a * 16777216 + b * 65536 + c * 256 + d) :: bytesToWords rest
  | _ => []

/-- The i-th 16-word block of the padded message. -/
def shaBlock (ws : List Nat) (i : Nat) : List Nat :=
  (ws.drop (16 * i)).take 16

/-- Extend a 16-word block to the 64-word message schedule. -/
def shaSchedule (block : List Nat) : Array Nat :=
  (List.range 48).foldl
    (fun w i =>
      w.push (w32 (w[i]! + sigma0 w[i + 1]! + w[i + 9]! + sigma1 w[i + 14]!)))
    block.toArray

/-- One round of the SHA-256 compression function, consuming a
(round constant, schedule word) pair. -/
def shaRound (st : Hash8) (kw : Nat × Nat) : Hash8 :=
  let t1 := w32 (st.h + bigSigma1 st.e + shaCh st.e st.f st.g + kw.1 + kw.2)
  let t2 := w32 (bigSigma0 st.a + shaMaj st.a st.b st.c)
  ⟨w32 (t1 + t2), st.a, st.b, st.c, w32 (st.d + t1), st.e, st.f, st.g⟩

/-- Process one 16-word block: run 64 rounds and add the result into the
running hash value, word-wise mod 2 ^ 32. -/
def shaProcessBlock (st : Hash8) (block : List Nat) : Hash8 :=
  let r := (K256.zip (shaSchedule block).toList).foldl shaRound st
  ⟨w32 (st.a + r.a), w32 (st.b + r.b), w32 (st.c + r.c), w32 (st.d + r.d),
   w32 (st.e + r.e), w32 (st.f + r.f), w32 (st.g + r.g), w32 (st.h + r.h)⟩

/-- SHA-256 of a byte list, as the eight final hash words. -/
def sha256Words (msg : List Nat) : List Nat :=
  let ws := bytesToWords (shaPad msg)
  let fin := (List.range (ws.length / 16)).foldl
    (fun st i => shaProcessBlock st (shaBlock ws i)) initHash
  [fin.a, fin.b, fin.c, fin.d, fin.e, fin.f, fin.g, fin.h]

/-- Lowercase hexadecimal digit for a value below 16. -/
def hexDigit (n : Nat) : Char :=
  if n < 10 then Char.ofNat (48 + n) else Char.ofNat (87 + n)

/-- Eight lowercase hex characters of a 32-bit word, most significant
nibble first. -/
def wordToHex (w : Nat) : List Char :=
  (List.range 8).map (fun i => hexDigit ((w >>> (28 - 4 * i)) % 16))

/-- Lowercase hex digest of a byte list, as hexdigest() renders it. -/
def sha256Hex (msg : List Nat) : String :=
  ⟨(sha256Words msg).flatMap wordToHex⟩

/-- The hash_password helper of check_password:
hashlib.sha256(password.encode()).hexdigest(). -/
def hash_password (password : String) : String :=
  sha256Hex (utf8Bytes password)

/-! ## The users table and credential verification -/

/-- One row of the users table: username, password_hash, role
(created_at is never read by the verification path and is omitted). -/
structure UserRec where
  username : String
  password_hash : String
  role : String
deriving DecidableEq, Repr

/-- The SELECT password_hash, role FROM users WHERE username = ...
query followed by cursor.fetchone(): the first row whose username
column equals the parameter, if any. -/
def usersFetchone (db : List UserRec) (username : String) : Option UserRec :=
  (db.filter (fun r => r.username == username)).head?

/-- The verify_credentials inner function of check_password. The connOk
flag models whether the connection and query succeed; the except-branch
of the source returns (False, None) on any raised exception, and a
fetched row with a non-matching stored hash also yields (False, None). -/
def verify_credentials (db : List UserRec) (connOk : Bool)
    (username password : String) : Bool × Option String :=
  if connOk then
    match usersFetchone db username with
    | some r =>
        if r.password_hash == hash_password password then (true, some r.role)
        else (false, none)
    | none => (false, none)
  else (false, none)

/-- The streamlit session_state entries touched by the login flow; a
field holding none models an absent (deleted or never-set) key. -/
structure SessionState where
  username : Option String
  password : Option String
  password_correct : Option Bool
  logged_in_user : Option String
  user_role : Option String
deriving DecidableEq, Repr

/-- The credentials_entered callback: reads the submitted username and
password from session state (none result models the KeyError raised when
a key is absent, which cannot happen while the login widgets exist). On
success it sets password_correct, logged_in_user and user_role and then
deletes the password and username entries; on failure it only sets
password_correct to false. -/
def credentials_entered (db : List UserRec) (connOk : Bool)
    (s : SessionState) : Option SessionState :=
  match s.username, s.password with
  | some u, some p =>
      let res := verify_credentials db connOk u p
      if res.1 then
        some { username := none, password := none,
               password_correct := some true,
               logged_in_user := some u, user_role := res.2 }
      else
        some { s with password_correct := some false }
  | _, _ => none

/-! ## The sales and launched_products tables and SQL building blocks -/

/-- One row of the sales table. The currency columns are decimals,
modelled as rationals. -/
structure Sale where
  master_sku : String
  order_date : Date
  quantity_ordered : Int
  sales_ordered : Rat
  avg_price : Rat
deriving DecidableEq, Repr

/-- One row of the launched_products table. -/
structure LaunchedProduct where
  sku : String
  created_at : Timestamp
deriving DecidableEq, Repr

/-- SQL BETWEEN on dates: lo and hi bounds both included. -/
def sqlBetween (d lo hi : Date) : Bool :=
  decide (lo ≤ d) && decide (d ≤ hi)

/-- SQL SUM over an integer column: NULL (none) when there is no input
row, otherwise the sum. -/
def sqlSumInt (l : List Int) : Option Int :=
  if l.isEmpty then none else some l.sum

/-- SQL SUM over a decimal column: NULL (none) when there is no input
row, otherwise the sum. -/
def sqlSumRat (l : List Rat) : Option Rat :=
  if l.isEmpty then none else some l.sum

/-- SQL AVG over a decimal column: NULL (none) when there is no input
row, otherwise the mean. -/
def sqlAvgRat (l : List Rat) : Option Rat :=
  if l.isEmpty then none else some (l.sum / (l.length : Rat))

/-- SQL COUNT(DISTINCT column): the number of distinct values. -/
def sqlCountDistinct (l : List String) : Nat :=
  l.dedup.length

/-- SQL COALESCE(x, 0) on an integer aggregate. -/
def coalesceInt (o : Option Int) : Int := o.getD 0

/-- SQL COALESCE(x, 0) on a decimal aggregate. -/
def coalesceRat (o : Option Rat) : Rat := o.getD 0

/-! ## The Overview query -/

/-- The single result row of the Overview query. -/
structure OverviewRow where
  total_skus : Nat
  total_units : Option Int
  total_revenue : Option Rat
deriving DecidableEq, Repr

/-- The Overview query: COUNT(DISTINCT master_sku), SUM(quantity_ordered)
and SUM(sales_ordered) over sales rows with order_date BETWEEN the two
filter dates. -/
def overviewQuery (sales : List Sale) (start_date end_date : Date) : OverviewRow :=
  let rows := sales.filter (fun s => sqlBetween s.order_date start_date end_date)
  { total_skus := sqlCountDistinct (rows.map Sale.master_sku)
  , total_units := sqlSumInt (rows.map Sale.quantity_ordered)
  , total_revenue := sqlSumRat (rows.map Sale.sales_ordered) }

/-- The sale records whose order_date lies in the closed interval from
start to stop, as the specification words it. -/
def salesInRange (sales : List Sale) (start stop : Date) : List Sale :=
  sales.filter (fun r => decide (start ≤ r.order_date ∧ r.order_date ≤ stop))

/-- Total units as the specification words it: the sum of
quantity_ordered over exactly the sale records in the closed interval. -/
def specTotalUnits (sales : List Sale) (start stop : Date) : Int :=
  ((salesInRange sales start stop).map Sale.quantity_ordered).sum

/-- Total revenue as the specification words it: the sum of
sales_ordered over exactly the sale records in the closed interval. -/
def specTotalRevenue (sales : List Sale) (start stop : Date) : Rat :=
  ((salesInRange sales start stop).map Sale.sales_ordered).sum

/-- Distinct SKU count as the specification words it: the number of
distinct master_sku values among the records in the closed interval. -/
def specTotalSkus (sales : List Sale) (start stop : Date) : Nat :=
  ((salesInRange sales start stop).map Sale.master_sku).toFinset.card

/-! ## The two launched_products joins -/

/-- Insert an element into a list ahead of the first element it does not
come after, according to the comparator. -/
def insertSorted (le : α → α → Bool) (a : α) : List α → List α
  | [] => [a]
  | b :: l => if le a b then a :: b :: l else b :: insertSorted le a l

/-- Stable insertion sort by a comparator, modelling the row ordering
imposed by an ORDER BY clause. -/
def sortBy (le : α → α → Bool) : List α → List α
  | [] => []
  | a :: l => insertSorted le a (sortBy le l)

/-- Strict order on timestamps: by date key, then by time of day. -/
def tsLtb (a b : Timestamp) : Bool :=
  a.date.toKey < b.date.toKey ||
    (a.date.toKey == b.date.toKey && a.tod < b.tod)

/-- Comparator for ORDER BY lp.created_at ASC, lp.sku ASC over the
grouping keys. -/
def perfOrder (a b : String × Timestamp) : Bool :=
  tsLtb a.2 b.2 || (a.2 == b.2 && (a.1 < b.1 || a.1 == b.1))

/-- Comparator for ORDER BY lp.created_at ASC over the grouping keys. -/
def launchOrder (a b : String × Timestamp) : Bool :=
  tsLtb a.2 b.2 || a.2 == b.2

/-- The GROUP BY lp.sku, lp.created_at keys, in first-appearance order
before sorting. -/
def groupKeys (lps : List LaunchedProduct) : List (String × Timestamp) :=
  (lps.map (fun lp => (lp.sku, lp.created_at))).dedup

/-- The launched_products rows belonging to one grouping key. -/
def groupMembers (lps : List LaunchedProduct) (key : String × Timestamp) :
    List LaunchedProduct :=
  lps.filter (fun lp => lp.sku == key.1 && lp.created_at == key.2)

/-- The joined sales rows of one group for the Product Performance by
Launch Date query: LEFT JOIN sales ON lp.sku = s.master_sku AND
s.order_date BETWEEN the order-date filter bounds. A group whose join
finds nothing contributes the empty list, matching the single all-NULL
joined row that SQL aggregates skip. -/
def perfGroupSales (lps : List LaunchedProduct) (sales : List Sale)
    (start_date end_date : Date) (key : String × Timestamp) : List Sale :=
  (groupMembers lps key).flatMap
    (fun lp => sales.filter
      (fun s => s.master_sku == lp.sku && sqlBetween s.order_date start_date end_date))

/-- One result row of the Product Performance by Launch Date query. -/
structure PerfRow where
  sku : String
  launch_date : Date
  total_units_sold : Int
  total_revenue : Rat
  average_price : Rat
deriving DecidableEq, Repr

/-- The aggregates of one Product Performance group, with the COALESCE
zero fills of the source query. -/
def perfRowFor (lps : List LaunchedProduct) (sales : List Sale)
    (start_date end_date : Date) (key : String × Timestamp) : PerfRow :=
  let js := perfGroupSales lps sales start_date end_date key
  { sku := key.1
  , launch_date := key.2.date
  , total_units_sold := coalesceInt (sqlSumInt (js.map Sale.quantity_ordered))
  , total_revenue := coalesceRat (sqlSumRat (js.map Sale.sales_ordered))
  , average_price := coalesceRat (sqlAvgRat (js.map Sale.avg_price)) }

/-- The Product Performance by Launch Date query: left join of
launched_products to sales within the order-date range, grouped by
(sku, created_at), ordered by launch timestamp then SKU. -/
def productPerformanceQuery (lps : List LaunchedProduct) (sales : List Sale)
    (start_date end_date : Date) : List PerfRow :=
  (sortBy perfOrder (groupKeys lps)).map (perfRowFor lps sales start_date end_date)

/-- One result row of the Launch Period Analysis query. -/
structure LaunchRow where
  sku : String
  launch_date : Date
  units_sold : Int
  revenue : Rat
deriving DecidableEq, Repr

/-- The joined sales rows of one group for the Launch Period Analysis
query: LEFT JOIN sales ON lp.sku = s.master_sku with no date condition
on the join. -/
def launchGroupSales (lps : List LaunchedProduct) (sales : List Sale)
    (key : String × Timestamp) : List Sale :=
  (groupMembers lps key).flatMap
    (fun lp => sales.filter (fun s => s.master_sku == lp.sku))

/-- The aggregates of one Launch Period Analysis group. -/
def launchRowFor (lps : List LaunchedProduct) (sales : List Sale)
    (key : String × Timestamp) : LaunchRow :=
  let js := launchGroupSales lps sales key
  { sku := key.1
  , launch_date := key.2.date
  , units_sold := coalesceInt (sqlSumInt (js.map Sale.quantity_ordered))
  , revenue := coalesceRat (sqlSumRat (js.map Sale.sales_ordered)) }

/-- The Launch Period Analysis query: the WHERE clause keeps only
launched products whose created_at::date lies between launch_start and
launch_end; it constrains lp columns only, so it commutes with the left
join and is applied to launched_products first. -/
def launchPeriodQuery (lps : List LaunchedProduct) (sales : List Sale)
    (launch_start launch_end : Date) : List LaunchRow :=
  let kept := lps.filter (fun lp => sqlBetween lp.created_at.date launch_start launch_end)
  (sortBy launchOrder (groupKeys kept)).map (launchRowFor kept sales)

/-! ## The data loader -/

/-- A driver-level query failure, as raised by pd.read_sql_query. -/
structure QueryError where
  msg : String
deriving DecidableEq, Repr

deriving instance DecidableEq for Except

/-- The observable outcome of one run of the undecorated load_data body:
the returned frame or the propagated error, whether get_connection was
called, and whether conn.close() was reached. -/
structure LoadOutcome (α : Type) where
  result : Except QueryError α
  connOpened : Bool
  connClosed : Bool
deriving DecidableEq, Repr

/-- The body of load_data, without the cache decorator: open a
connection, run the query, close, return. The source has no try/finally
around the close, so a raised query error propagates before conn.close()
is reached. runQuery models pd.read_sql_query against the connected
store. -/
def load_data_body (runQuery : String → Except QueryError α) (query : String) :
    LoadOutcome α :=
  match runQuery query with
  | .ok df => ⟨.ok df, true, true⟩
  | .error e => ⟨.error e, true, false⟩

/-- load_data as decorated with st.cache_data: the process-wide cache
maps exact query text to a previously returned frame. A hit returns the
cached frame with no store round-trip; a miss runs the body and caches
the frame on success (the decorator does not cache raised errors). The
third component of the result records whether a round-trip happened. -/
def load_data (runQuery : String → Except QueryError α)
    (cache : List (String × α)) (query : String) :
    LoadOutcome α × List (String × α) × Bool :=
  match cache.lookup query with
  | some df => (⟨.ok df, false, false⟩, cache, false)
  | none =>
      let out := load_data_body runQuery query
      match out.result with
      | .ok df => (out, (query, df) :: cache, true)
      | .error _ => (out, cache, true)

/-! ## Sidebar date range and report selection -/

instance : Inhabited Date := ⟨⟨2024, 1, 1⟩⟩

/-- The date-range defaulting after st.date_input: with exactly two
dates they are (start_date, end_date); otherwise start_date is the first
picked date if any, else datetime(2024, 1, 1), and end_date is
datetime(2025, 8, 31). -/
def resolveDateRange (date_range : List Date) : Date × Date :=
  if date_range.length = 2 then
    (date_range[0]!, date_range[1]!)
  else
    ((if date_range.isEmpty then ⟨2024, 1, 1⟩ else date_range[0]!), ⟨2025, 8, 31⟩)

/-- The options offered by the Select Report selectbox, in source
order. -/
def reportOptions : List String :=
  ["Overview", "Best Sellers", "Worst Sellers", "Sales Trend",
   "Seasonal Analysis", "Product Performance by Launch Date",
   "Launch Period Analysis"]

/-- The report kinds that the main-content dispatch chain can build a
query for. -/
inductive ReportKind where
  | overview
  | bestSellers
  | productPerformance
  | launchPeriod
deriving DecidableEq, Repr

/-- The if/elif dispatch over report_type in the main content: only four
of the seven selector options have a branch; any other selection falls
off the chain and renders nothing. -/
def dispatchReport (report_type : String) : Option ReportKind :=
  if report_type = "Overview" then some .overview
  else if report_type = "Best Sellers" then some .bestSellers
  else if report_type = "Product Performance by Launch Date" then some .productPerformance
  else if report_type = "Launch Period Analysis" then some .launchPeriod
  else none

/-! ## The admin add-user handler -/

/-- What the admin panel reports after the Add User button. -/
inductive AdminMsg where
  | added (username : String)
  | insertError
  | fillAllFields
deriving DecidableEq, Repr

/-- Modelled from the spec: the INSERT INTO users statement runs against
a users table whose schema (not part of src/) carries a uniqueness
constraint on username, so inserting an existing username raises a
database error. -/
def usersInsert (db : List UserRec) (username password_hash role : String) :
    Except QueryError (List UserRec) :=
  if db.any (fun r => r.username == username) then
    .error ⟨"duplicate key value violates unique constraint"⟩
  else
    .ok (db ++ [⟨username, password_hash, role⟩])

/-- The outcome of the Add User button handler: the users table after
the click, the message shown, and whether an INSERT was attempted. -/
structure AddUserOutcome where
  db : List UserRec
  message : AdminMsg
  insertAttempted : Bool
deriving DecidableEq, Repr

/-- The Add User button handler: if both username and password are
non-empty (Python truthiness of strings), hash the password and attempt
the INSERT, surfacing a raised database error as an inline error
message; otherwise show the fill-all-fields error without touching the
database. -/
def addUserHandler (db : List UserRec)
    (new_username new_password new_role : String) : AddUserOutcome :=
  if new_username != "" && new_password != "" then
    match usersInsert db new_username (hash_password new_password) new_role with
    | .ok db2 => ⟨db2, .added new_username, true⟩
    | .error _ => ⟨db, .insertError, true⟩
  else
    ⟨db, .fillAllFields, false⟩

/-! ## The connection provider -/

/-- Where get_connection connects: either a connection URL or the fixed
local development parameters. -/
inductive ConnTarget where
  | url (connString : String)
  | localConn (dbname user password host port : String)
deriving DecidableEq, Repr

/-- Python truthiness of the os.environ.get result: None and the empty
string are both falsy. -/
def pyTruthy : Option String → Bool
  | none => false
  | some s => s != ""

/-- Python str.startswith on whole strings. -/
def pyStartswith (s pre : String) : Bool :=
  pre.toList.isPrefixOf s.toList

/-- Python str.replace(old, new, 1) over the character list: replace the
first occurrence of the (non-empty) pattern, leaving the rest of the
string, later occurrences included, untouched. -/
def pyReplaceFirstAux (pat rep : List Char) : List Char → List Char
  | [] => []
  | c :: rest =>
      if pat.isPrefixOf (c :: rest) then rep ++ (c :: rest).drop pat.length
      else c :: pyReplaceFirstAux pat rep rest

/-- Python str.replace(old, new, 1) on strings. -/
def pyReplaceFirst (s pat rep : String) : String :=
  ⟨pyReplaceFirstAux pat.toList rep.toList s.toList⟩

/-- get_connection: if DATABASE_URL is truthy use it, rewriting a
leading legacy postgres:// scheme to postgresql:// via str.replace with
count 1; otherwise connect to the fixed local development target. The
returned value is the target handed to psycopg2.connect. -/
def get_connection (database_url : Option String) : ConnTarget :=
  if pyTruthy database_url then
    let u := database_url.getD ""
    .url (if pyStartswith u "postgres://" then
            pyReplaceFirst u "postgres://" "postgresql://"
          else u)
  else
    .localConn "sales_analytics" "emil.aliyev" "" "localhost" "5432"

/-! ## Concrete fixtures used by witnesses and counterexamples -/

/-- The SHA-256 hex digest of the password string used in the login
scenario of the specification. -/
def digestSecret : String :=
  "2bb80d537b1da3e38bd30361aa855686bde0eacd7162fef6a25fe97bf527a25b"

/-- A one-user table matching the scenario of the specification. -/
def demoUsers : List UserRec := [⟨"admin1", digestSecret, "admin"⟩]

/-- The two-row sales table of the Overview scenario. -/
def demoSales : List Sale :=
  [⟨"A1", ⟨2024, 6, 1⟩, 3, 90, 30⟩, ⟨"A1", ⟨2024, 7, 1⟩, 2, 60, 30⟩]

/-- A single launched product, launched 2024-06-01. -/
def demoLaunch : LaunchedProduct := ⟨"P1", ⟨⟨2024, 6, 1⟩, 0⟩⟩

/-- A one-row launched_products table. -/
def demoLaunches : List LaunchedProduct := [demoLaunch]

/-- A store in which every query yields the same small frame. -/
def demoRunQuery : String → Except QueryError Nat := fun _ => .ok 42

/-- A store in which every query raises. -/
def demoFailQuery : String → Except QueryError Nat :=
  fun _ => .error ⟨"relation sales does not exist"⟩

/-- A session state holding freshly submitted wrong credentials. -/
def demoSession : SessionState :=
  ⟨some "admin1", some "wrong", none, none, none⟩

/-! ## Supporting lemmas -/

/-- Inserting into a sorted list is a permutation of consing. -/
theorem insertSorted_perm (le : α → α → Bool) (a : α) (l : List α) :
    (insertSorted le a l).Perm (a :: l) := by
  induction l with
  | nil => exact List.Perm.refl _
  | cons b l ih =>
      by_cases h : le a b
      · simp [insertSorted, h]
      · simp only [insertSorted, h, if_neg, Bool.not_eq_true]
        exact (ih.cons b).trans (List.Perm.swap a b l)

/-- Insertion sort permutes its input. -/
theorem sortBy_perm (le : α → α → Bool) (l : List α) :
    (sortBy le l).Perm l := by
  induction l with
  | nil => exact List.Perm.refl _
  | cons a l ih => exact (insertSorted_perm le a (sortBy le l)).trans (ih.cons a)

/-! ## C6: date-range defaulting -/

/-- C6: a picker result with fewer than two dates is defaulted, the
start to 2024-01-01 when absent and the end to 2025-08-31, while exactly
two picked dates pass through unchanged as (start, end). -/
theorem date_range_defaulting :
    resolveDateRange [] = (⟨2024, 1, 1⟩, ⟨2025, 8, 31⟩) ∧
    (∀ d : Date, resolveDateRange [d] = (d, ⟨2025, 8, 31⟩)) ∧
    (∀ a b : Date, resolveDateRange [a, b] = (a, b)) :=
  ⟨rfl, fun _ => rfl, fun _ _ => rfl⟩

/-! ## C7: selector options without a dispatch branch -/

/-- C7: Worst Sellers, Sales Trend and Seasonal Analysis are offered by
the report selector, yet the dispatch chain has no branch for any of
them, so selecting them builds no query and renders no report. -/
theorem unimplemented_report_kinds :
    ("Worst Sellers" ∈ reportOptions ∧ dispatchReport "Worst Sellers" = none) ∧
    ("Sales Trend" ∈ reportOptions ∧ dispatchReport "Sales Trend" = none) ∧
    ("Seasonal Analysis" ∈ reportOptions ∧ dispatchReport "Seasonal Analysis" = none) := by
  decide

/-! ## C5: connection release in the data loader -/

/-- C5 counterexample: when the query raises, the load_data body opens a
connection and never reaches conn.close(), so the close is not
unconditional. -/
theorem load_data_close_counterexample :
    (load_data_body demoFailQuery "SELECT * FROM sales").connOpened = true ∧
    (load_data_body demoFailQuery "SELECT * FROM sales").connClosed = false := by
  decide

/-- C5 amended: a cache miss opens a fresh connection (a hit opens
none), and the connection is closed exactly when a connection was opened
and the query succeeded; a query failure propagates before conn.close()
and leaves the connection open. -/
theorem load_data_connection_discipline (runQuery : String → Except QueryError α)
    (cache : List (String × α)) (query : String) :
    (load_data runQuery cache query).1.connOpened = (load_data runQuery cache query).2.2 ∧
    (load_data runQuery cache query).1.connClosed =
      ((load_data runQuery cache query).2.2 &&
        (load_data runQuery cache query).1.result.isOk) := by
  cases h : cache.lookup query with
  | some df => simp [load_data, h, Except.isOk, Except.toBool]
  | none =>
      cases hq : runQuery query with
      | ok df => simp [load_data, load_data_body, h, hq, Except.isOk, Except.toBool]
      | error e => simp [load_data, load_data_body, h, hq, Except.isOk, Except.toBool]

/-! ## C9: connection target resolution -/

/-- Replacing the first occurrence of a pattern that starts the string
keeps the remainder, later occurrences of the pattern included,
untouched. -/
theorem pyReplaceFirstAux_of_isPrefix {pat rep : List Char} (l : List Char)
    (hne : pat ≠ []) (h : pat.isPrefixOf l = true) :
    pyReplaceFirstAux pat rep l = rep ++ l.drop pat.length := by
  cases l with
  | nil =>
      cases pat with
      | nil => exact absurd rfl hne
      | cons c cs => simp [List.isPrefixOf] at h
  | cons c rest => simp [pyReplaceFirstAux, h]

/-- C9 counterexample: the environment variable set to the empty string
is set, yet Python truthiness sends get_connection to the local
development target instead of using the value. -/
theorem get_connection_counterexample :
    get_connection (some "") ≠ ConnTarget.url "" ∧
    get_connection (some "") =
      ConnTarget.localConn "sales_analytics" "emil.aliyev" "" "localhost" "5432" := by
  decide

/-- C9 amended: for a non-empty DATABASE_URL value the provider uses it,
rewriting only a leading postgres:// scheme to postgresql:// and leaving
the rest of the string, later occurrences included, verbatim; with the
variable unset it connects to the fixed local development target. -/
theorem get_connection_resolution (u : String) (hu : u ≠ "") :
    (pyStartswith u "postgres://" = true →
      get_connection (some u) = .url ⟨"postgresql://".toList ++ u.toList.drop 11⟩) ∧
    (pyStartswith u "postgres://" = false → get_connection (some u) = .url u) ∧
    get_connection none =
      .localConn "sales_analytics" "emil.aliyev" "" "localhost" "5432" := by
  have htru : pyTruthy (some u) = true := by
    simp [pyTruthy, hu]
  refine ⟨fun h => ?_, fun h => ?_, rfl⟩
  · simp only [get_connection, htru, if_pos, Option.getD_some, h, if_true,
      pyReplaceFirst]
    rw [pyReplaceFirstAux_of_isPrefix u.toList (by decide) (by simpa [pyStartswith] using h)]
    rfl
  · simp [get_connection, htru, h]

/-- C9 witness: a Render-style URL with the legacy scheme is rewritten
to the driver scheme with the remainder untouched. -/
theorem get_connection_resolution_witness :
    get_connection (some "postgres://db.example.com/sales") =
      .url ⟨"postgresql://".toList ++ "postgres://db.example.com/sales".toList.drop 11⟩ :=
  (get_connection_resolution "postgres://db.example.com/sales" (by decide)).1 (by decide)

/-! ## C4: memoization of the data loader -/

/-- C4: once a call for a query text has returned a frame, a second call
with the identical text returns the identical frame out of the cache,
leaves the cache unchanged, and performs no round-trip to the store. -/
theorem load_data_idempotent (runQuery : String → Except QueryError α)
    (cache : List (String × α)) (query : String) (df : α)
    (h : (load_data runQuery cache query).1.result = .ok df) :
    load_data runQuery ((load_data runQuery cache query).2.1) query =
      (⟨.ok df, false, false⟩, (load_data runQuery cache query).2.1, false) := by
  cases hl : cache.lookup query with
  | some df0 =>
      simp only [load_data, hl] at h ⊢
      obtain rfl : df0 = df := by simpa using h
      rfl
  | none =>
      cases hq : runQuery query with
      | ok df0 =>
          simp only [load_data, load_data_body, hl, hq] at h ⊢
          obtain rfl : df0 = df := by simpa using h
          simp [List.lookup]
      | error e =>
          simp [load_data, load_data_body, hl, hq] at h

/-- C4 witness: a concrete first call populates the cache and the second
call is served from it without a round-trip. -/
theorem load_data_idempotent_witness :
    load_data demoRunQuery ((load_data demoRunQuery [] "SELECT 1").2.1) "SELECT 1" =
      (⟨.ok 42, false, false⟩, (load_data demoRunQuery [] "SELECT 1").2.1, false) :=
  load_data_idempotent demoRunQuery [] "SELECT 1" 42 rfl

/-! ## C10: session-state effects of the login callback -/

/-- C10: on a successful check the callback sets password_correct,
logged_in_user and user_role and deletes the plaintext password and
username entries; on a failed check it sets only password_correct to
false, leaving the submitted username and password entries in place. -/
theorem credentials_entered_effects (db : List UserRec) (connOk : Bool)
    (s : SessionState) (u p : String)
    (hu : s.username = some u) (hp : s.password = some p) :
    ((verify_credentials db connOk u p).1 = true →
      credentials_entered db connOk s =
        some ⟨none, none, some true, some u, (verify_credentials db connOk u p).2⟩) ∧
    ((verify_credentials db connOk u p).1 = false →
      credentials_entered db connOk s = some { s with password_correct := some false } ∧
      ({ s with password_correct := some false }).username = some u ∧
      ({ s with password_correct := some false }).password = some p) := by
  constructor
  · intro hv
    simp [credentials_entered, hu, hp, hv]
  · intro hv
    exact ⟨by simp [credentials_entered, hu, hp, hv], hu, hp⟩

set_option maxRecDepth 100000 in
/-- C10 witness: a failed login with wrong credentials records only the
failure flag and keeps the submitted entries. -/
theorem credentials_entered_effects_witness :
    credentials_entered demoUsers true demoSession =
      some { demoSession with password_correct := some false } ∧
    ({ demoSession with password_correct := some false }).username = some "admin1" ∧
    ({ demoSession with password_correct := some false }).password = some "wrong" :=
  (credentials_entered_effects demoUsers true demoSession "admin1" "wrong" rfl rfl).2
    (by decide)

/-! ## C8: the admin add-user operation -/

/-- C8: with a non-empty username and password the handler attempts the
INSERT; an existing username makes the insert fail with the uniqueness
violation, surfaced as an inline error with the table unchanged, while a
fresh username is appended; an empty username or password attempts no
insert and shows an error. -/
theorem add_user_validation (db : List UserRec) (u p r : String) :
    (u ≠ "" → p ≠ "" →
      (addUserHandler db u p r).insertAttempted = true ∧
      ((∃ rec ∈ db, rec.username = u) →
        (addUserHandler db u p r).message = .insertError ∧
        (addUserHandler db u p r).db = db) ∧
      ((¬ ∃ rec ∈ db, rec.username = u) →
        (addUserHandler db u p r).message = .added u ∧
        (addUserHandler db u p r).db = db ++ [⟨u, hash_password p, r⟩])) ∧
    ((u = "" ∨ p = "") →
      (addUserHandler db u p r).insertAttempted = false ∧
      (addUserHandler db u p r).message = .fillAllFields ∧
      (addUserHandler db u p r).db = db) := by
  constructor
  · intro hu hp
    by_cases hdup : ∃ rec ∈ db, rec.username = u
    · have hany : db.any (fun rec => rec.username == u) = true := by
        simpa [List.any_eq_true] using hdup
      refine ⟨?_, fun _ => ⟨?_, ?_⟩, fun hn => absurd hdup hn⟩ <;>
        simp [addUserHandler, usersInsert, hu, hp, hany]
    · have hany : db.any (fun rec => rec.username == u) = false := by
        simpa [List.any_eq_true] using hdup
      refine ⟨?_, fun hd => absurd hd hdup, fun _ => ⟨?_, ?_⟩⟩ <;>
        simp [addUserHandler, usersInsert, hu, hp, hany]
  · intro hcases
    rcases hcases with hu | hp
    · simp [addUserHandler, hu]
    · simp [addUserHandler, hp]

/-- C8 witness: adding the already-present username a second time
attempts the insert, surfaces the uniqueness error, and leaves the
users table unchanged. -/
theorem add_user_validation_witness :
    (addUserHandler demoUsers "admin1" "newpass" "admin").insertAttempted = true ∧
    (addUserHandler demoUsers "admin1" "newpass" "admin").message = .insertError ∧
    (addUserHandler demoUsers "admin1" "newpass" "admin").db = demoUsers := by
  have h := (add_user_validation demoUsers "admin1" "newpass" "admin").1
    (by decide) (by decide)
  have hd := h.2.1 (by decide)
  exact ⟨h.1, hd.1, hd.2⟩

/-! ## C1: credential verification -/

/-- fetchone after the filtering SELECT is a first-match search. -/
theorem usersFetchone_eq_find (db : List UserRec) (u : String) :
    usersFetchone db u = db.find? (fun r => r.username == u) := by
  induction db with
  | nil => rfl
  | cons r rest ih =>
      by_cases h : (r.username == u) = true
      · simp [usersFetchone, List.filter_cons, h, List.find?_cons_of_pos _ h]
      · rw [List.find?_cons_of_neg _ (by simp [h])]
        rw [← ih]
        simp [usersFetchone, List.filter_cons, h]

/-- verify_credentials on a live connection when the lookup finds no
row. -/
theorem verify_credentials_of_find_none (db : List UserRec) (u p : String)
    (hf : db.find? (fun r => r.username == u) = none) :
    verify_credentials db true u p = (false, none) := by
  rw [verify_credentials, usersFetchone_eq_find, hf]
  simp

/-- verify_credentials on a live connection when the lookup finds a
row: the stored hash is compared with the freshly computed digest. -/
theorem verify_credentials_of_find_some (db : List UserRec) (u p : String)
    (r : UserRec) (hf : db.find? (fun x => x.username == u) = some r) :
    verify_credentials db true u p =
      if r.password_hash == hash_password p then (true, some r.role)
      else (false, none) := by
  rw [verify_credentials, usersFetchone_eq_find, hf]
  simp

/-- Under unique usernames, the first match for a username is the only
record carrying it. -/
theorem find_of_nodup_usernames {db : List UserRec} {u : String} {r : UserRec}
    (huniq : (db.map UserRec.username).Nodup) (hmem : r ∈ db) (hu : r.username = u) :
    db.find? (fun x => x.username == u) = some r := by
  induction db with
  | nil => cases hmem
  | cons x rest ih =>
      have hx : (x.username ∉ rest.map UserRec.username) ∧
          (rest.map UserRec.username).Nodup := by
        simpa [List.nodup_cons] using huniq
      rcases List.mem_cons.mp hmem with rfl | hmem2
      · exact List.find?_cons_of_pos _ (by simp [hu])
      · have hne : (x.username == u) = false := by
          rw [beq_eq_false_iff_ne]
          intro he
          exact hx.1 (by
            have : r.username ∈ rest.map UserRec.username :=
              List.mem_map_of_mem UserRec.username hmem2
            rwa [hu, ← he] at this)
        rw [List.find?_cons_of_neg _ (by simp [hne])]
        exact ih hx.2 hmem2

/-- C1: with unique usernames, verify_credentials returns (true, role)
exactly when the connection and lookup succeed and a stored record with
that username carries the SHA-256 hex digest of the submitted password;
a wrong password, an unknown username, and a connection failure all
yield (false, none), and no error escapes. -/
theorem verify_credentials_correct (db : List UserRec) (connOk : Bool) (u p : String)
    (huniq : (db.map UserRec.username).Nodup) :
    (∀ role : String,
      verify_credentials db connOk u p = (true, some role) ↔
        (connOk = true ∧
          ∃ r ∈ db, r.username = u ∧ r.password_hash = hash_password p ∧
            r.role = role)) ∧
    ((connOk = false ∨ ¬ ∃ r ∈ db, r.username = u ∧ r.password_hash = hash_password p) →
      verify_credentials db connOk u p = (false, none)) := by
  constructor
  · intro role
    constructor
    · intro hv
      cases connOk with
      | false => simp [verify_credentials] at hv
      | true =>
          refine ⟨rfl, ?_⟩
          cases hf : db.find? (fun r => r.username == u) with
          | none =>
              rw [verify_credentials_of_find_none db u p hf] at hv
              simp at hv
          | some r =>
              rw [verify_credentials_of_find_some db u p r hf] at hv
              by_cases hh : (r.password_hash == hash_password p) = true
              · rw [if_pos hh] at hv
                refine ⟨r, List.mem_of_find?_eq_some hf,
                  by simpa using List.find?_some hf, by simpa using hh, ?_⟩
                exact Option.some.inj (Prod.ext_iff.mp hv).2
              · rw [if_neg hh] at hv
                simp at hv
    · rintro ⟨hconn, r, hmem, hu, hhash, hrole⟩
      subst hconn
      rw [verify_credentials_of_find_some db u p r
          (find_of_nodup_usernames huniq hmem hu),
        if_pos (by simpa using hhash), hrole]
  · intro hfail
    rcases hfail with hconn | hno
    · subst hconn
      simp [verify_credentials]
    · cases connOk with
      | false => simp [verify_credentials]
      | true =>
          cases hf : db.find? (fun r => r.username == u) with
          | none => exact verify_credentials_of_find_none db u p hf
          | some r =>
              have hne : (r.password_hash == hash_password p) = false := by
                rw [beq_eq_false_iff_ne]
                intro he
                exact hno ⟨r, List.mem_of_find?_eq_some hf,
                  by simpa using List.find?_some hf, he⟩
              rw [verify_credentials_of_find_some db u p r hf,
                if_neg (by simp [hne])]

set_option maxRecDepth 100000 in
/-- C1 witness: the stored SHA-256 digest of the scenario password makes
the login succeed with the stored role. -/
theorem verify_credentials_correct_witness :
    verify_credentials demoUsers true "admin1" "secret" = (true, some "admin") :=
  ((verify_credentials_correct demoUsers true "admin1" "secret" (by decide)).1
      "admin").mpr
    ⟨rfl, ⟨"admin1", digestSecret, "admin"⟩, by decide, rfl, by decide, rfl⟩

/-! ## C2: the Overview totals -/

/-- The BETWEEN filter of the query and the closed-interval filter of
the specification keep the same rows. -/
theorem overview_filter_eq (sales : List Sale) (start stop : Date) :
    sales.filter (fun s => sqlBetween s.order_date start stop) =
      salesInRange sales start stop := by
  apply List.filter_congr
  intro r _
  simp [sqlBetween, salesInRange, Bool.decide_and]

/-- C2 counterexample: for a valid range with no matching sale record,
SQL SUM yields NULL, not the (empty) sum 0, so the totals do not equal
the sums over the matching records on every sales table. -/
theorem overview_claim_counterexample :
    (⟨2024, 1, 1⟩ : Date) ≤ ⟨2025, 8, 31⟩ ∧
    (overviewQuery [] ⟨2024, 1, 1⟩ ⟨2025, 8, 31⟩).total_units ≠
      some (specTotalUnits [] ⟨2024, 1, 1⟩ ⟨2025, 8, 31⟩) ∧
    (overviewQuery [] ⟨2024, 1, 1⟩ ⟨2025, 8, 31⟩).total_revenue ≠
      some (specTotalRevenue [] ⟨2024, 1, 1⟩ ⟨2025, 8, 31⟩) := by
  decide

/-- C2 amended: for every valid range in which at least one sale record
falls, the Overview totals are exactly the sums of quantity_ordered and
sales_ordered over the records with order_date in the closed interval,
and the SKU total is the number of distinct master_sku values among
them; with no record in range the unit and revenue totals are SQL NULL
while the SKU total is 0. -/
theorem overview_totals_correct (sales : List Sale) (start stop : Date)
    (_hrange : start ≤ stop) (hne : salesInRange sales start stop ≠ []) :
    (overviewQuery sales start stop).total_units =
      some (specTotalUnits sales start stop) ∧
    (overviewQuery sales start stop).total_revenue =
      some (specTotalRevenue sales start stop) ∧
    (overviewQuery sales start stop).total_skus = specTotalSkus sales start stop := by
  have hmapInt : (salesInRange sales start stop).map Sale.quantity_ordered ≠ [] := by
    simpa [List.map_eq_nil_iff] using hne
  have hmapRat : (salesInRange sales start stop).map Sale.sales_ordered ≠ [] := by
    simpa [List.map_eq_nil_iff] using hne
  refine ⟨?_, ?_, ?_⟩
  · simp [overviewQuery, overview_filter_eq, sqlSumInt, specTotalUnits,
      List.isEmpty_iff, hmapInt]
  · simp [overviewQuery, overview_filter_eq, sqlSumRat, specTotalRevenue,
      List.isEmpty_iff, hmapRat]
  · simp [overviewQuery, overview_filter_eq, sqlCountDistinct, specTotalSkus,
      List.card_toFinset]

/-- C2 witness: the scenario table with two A1 records inside the range
satisfies the amended totals. -/
theorem overview_totals_witness :
    (overviewQuery demoSales ⟨2024, 1, 1⟩ ⟨2025, 8, 31⟩).total_units =
      some (specTotalUnits demoSales ⟨2024, 1, 1⟩ ⟨2025, 8, 31⟩) ∧
    (overviewQuery demoSales ⟨2024, 1, 1⟩ ⟨2025, 8, 31⟩).total_revenue =
      some (specTotalRevenue demoSales ⟨2024, 1, 1⟩ ⟨2025, 8, 31⟩) ∧
    (overviewQuery demoSales ⟨2024, 1, 1⟩ ⟨2025, 8, 31⟩).total_skus =
      specTotalSkus demoSales ⟨2024, 1, 1⟩ ⟨2025, 8, 31⟩ :=
  overview_totals_correct demoSales ⟨2024, 1, 1⟩ ⟨2025, 8, 31⟩
    (by decide) (by decide)

/-! ## C3: left-join completeness of the two launch reports -/

/-- With unique SKUs the grouping keys are exactly the launched-product
records, one key per record. -/
theorem groupKeys_of_nodup_sku {lps : List LaunchedProduct}
    (huniq : (lps.map LaunchedProduct.sku).Nodup) :
    groupKeys lps = lps.map (fun lp => (lp.sku, lp.created_at)) := by
  apply List.dedup_eq_self.mpr
  apply List.Nodup.of_map Prod.fst
  simpa [List.map_map, Function.comp] using huniq

/-- With unique SKUs, each launched product contributes exactly one
grouping key carrying its SKU. -/
theorem groupKeys_countP_eq_one {lps : List LaunchedProduct} {lp : LaunchedProduct}
    (huniq : (lps.map LaunchedProduct.sku).Nodup) (hmem : lp ∈ lps) :
    (groupKeys lps).countP (fun key => key.1 == lp.sku) = 1 := by
  rw [groupKeys_of_nodup_sku huniq, List.countP_map]
  have h1 : List.countP
      ((fun key : String × Timestamp => key.1 == lp.sku) ∘
        fun x => (x.sku, x.created_at)) lps =
      List.countP (· == lp.sku) (lps.map LaunchedProduct.sku) := by
    rw [List.countP_map]
    rfl
  rw [h1]
  exact List.count_eq_one_of_mem huniq (List.mem_map_of_mem _ hmem)

/-- A SKU carried by no launched product contributes no grouping key. -/
theorem groupKeys_countP_eq_zero {lps : List LaunchedProduct} {sku : String}
    (hnot : ∀ x ∈ lps, x.sku ≠ sku) :
    (groupKeys lps).countP (fun key => key.1 == sku) = 0 := by
  rw [List.countP_eq_zero]
  intro key hkey
  obtain ⟨x, hx, rfl⟩ := List.mem_map.mp (List.mem_dedup.mp hkey)
  simpa using hnot x hx

/-- The grouping key of a launched product is among the grouping keys. -/
theorem mem_groupKeys {lps : List LaunchedProduct} {lp : LaunchedProduct}
    (hmem : lp ∈ lps) : (lp.sku, lp.created_at) ∈ groupKeys lps :=
  List.mem_dedup.mpr (List.mem_map_of_mem _ hmem)

/-- A Product Performance group whose SKU finds no sales row in the
order-date range aggregates to the zero-filled row. -/
theorem perfRowFor_zero {lps : List LaunchedProduct} {sales : List Sale}
    {start stop : Date} {lp : LaunchedProduct}
    (hnone : sales.filter
      (fun s => s.master_sku == lp.sku && sqlBetween s.order_date start stop) = []) :
    perfRowFor lps sales start stop (lp.sku, lp.created_at) =
      ⟨lp.sku, lp.created_at.date, 0, 0, 0⟩ := by
  have hjs : perfGroupSales lps sales start stop (lp.sku, lp.created_at) = [] := by
    rw [perfGroupSales, List.flatMap_eq_nil_iff]
    intro x hx
    rw [groupMembers] at hx
    have hp := List.of_mem_filter hx
    simp only [Bool.and_eq_true, beq_iff_eq] at hp
    rw [hp.1]
    exact hnone
  simp [perfRowFor, hjs, sqlSumInt, sqlSumRat, sqlAvgRat, coalesceInt, coalesceRat]

/-- A Launch Period group whose SKU finds no sales row at all
aggregates to the zero-filled row. -/
theorem launchRowFor_zero {lps : List LaunchedProduct} {sales : List Sale}
    {lp : LaunchedProduct}
    (hnone : sales.filter (fun s => s.master_sku == lp.sku) = []) :
    launchRowFor lps sales (lp.sku, lp.created_at) =
      ⟨lp.sku, lp.created_at.date, 0, 0⟩ := by
  have hjs : launchGroupSales lps sales (lp.sku, lp.created_at) = [] := by
    rw [launchGroupSales, List.flatMap_eq_nil_iff]
    intro x hx
    rw [groupMembers] at hx
    have hp := List.of_mem_filter hx
    simp only [Bool.and_eq_true, beq_iff_eq] at hp
    rw [hp.1]
    exact hnone
  simp [launchRowFor, hjs, sqlSumInt, sqlSumRat, coalesceInt, coalesceRat]

/-- C3 counterexample: in the Launch Period Analysis report a launched
product whose launch date lies outside the chosen launch window does
not appear at all, so not every launched product appears exactly once
in every joined report. -/
theorem join_completeness_counterexample :
    demoLaunch ∈ demoLaunches ∧
    (launchPeriodQuery demoLaunches [] ⟨2025, 1, 1⟩ ⟨2025, 4, 30⟩).countP
      (fun row => row.sku == demoLaunch.sku) = 0 := by
  decide

/-- C3 amended: with unique SKUs, every launched product appears
exactly once in Product Performance by Launch Date, zero-filled when no
sales row matches it in the order-date range; in Launch Period Analysis
a launched product appears exactly once when its launch date lies in
the launch window and not at all otherwise, zero-filled when in the
window with no matching sales row. -/
theorem join_completeness (lps : List LaunchedProduct) (sales : List Sale)
    (start stop launch_start launch_end : Date)
    (huniq : (lps.map LaunchedProduct.sku).Nodup) :
    (∀ lp ∈ lps,
      (productPerformanceQuery lps sales start stop).countP
        (fun row => row.sku == lp.sku) = 1 ∧
      (sales.filter
          (fun s => s.master_sku == lp.sku && sqlBetween s.order_date start stop) = [] →
        (⟨lp.sku, lp.created_at.date, 0, 0, 0⟩ : PerfRow) ∈
          productPerformanceQuery lps sales start stop)) ∧
    (∀ lp ∈ lps,
      (launchPeriodQuery lps sales launch_start launch_end).countP
        (fun row => row.sku == lp.sku) =
        (if sqlBetween lp.created_at.date launch_start launch_end then 1 else 0) ∧
      (sqlBetween lp.created_at.date launch_start launch_end = true →
        sales.filter (fun s => s.master_sku == lp.sku) = [] →
        (⟨lp.sku, lp.created_at.date, 0, 0⟩ : LaunchRow) ∈
          launchPeriodQuery lps sales launch_start launch_end)) := by
  constructor
  · intro lp hmem
    constructor
    · rw [productPerformanceQuery, List.countP_map,
        (sortBy_perm perfOrder (groupKeys lps)).countP_eq]
      exact groupKeys_countP_eq_one huniq hmem
    · intro hnone
      rw [productPerformanceQuery, ← perfRowFor_zero hnone]
      exact List.mem_map_of_mem _
        (((sortBy_perm perfOrder (groupKeys lps)).mem_iff).mpr (mem_groupKeys hmem))
  · intro lp hmem
    have hkeptuniq :
        ((lps.filter (fun x => sqlBetween x.created_at.date launch_start launch_end)).map
          LaunchedProduct.sku).Nodup :=
      ((List.filter_sublist lps).map LaunchedProduct.sku).nodup huniq
    constructor
    · by_cases hin : sqlBetween lp.created_at.date launch_start launch_end = true
      · rw [launchPeriodQuery, List.countP_map,
          (sortBy_perm launchOrder _).countP_eq, hin, if_pos rfl]
        exact groupKeys_countP_eq_one hkeptuniq (List.mem_filter.mpr ⟨hmem, hin⟩)
      · rw [launchPeriodQuery, List.countP_map,
          (sortBy_perm launchOrder _).countP_eq, if_neg hin]
        apply groupKeys_countP_eq_zero
        intro x hx he
        have hxlps := (List.mem_filter.mp hx).1
        have : x = lp := List.inj_on_of_nodup_map huniq hxlps hmem he
        exact hin (this ▸ (List.mem_filter.mp hx).2)
    · intro hin hnone
      rw [launchPeriodQuery, ← launchRowFor_zero hnone]
      exact List.mem_map_of_mem _
        (((sortBy_perm launchOrder _).mem_iff).mpr
          (mem_groupKeys (List.mem_filter.mpr ⟨hmem, hin⟩)))

/-- C3 witness: the single launched product P1 has no matching sales in
the scenario table, yet it appears exactly once in each report with
zero-filled aggregates when its launch date is inside the window. -/
theorem join_completeness_witness :
    ((productPerformanceQuery demoLaunches demoSales ⟨2024, 1, 1⟩ ⟨2025, 8, 31⟩).countP
        (fun row => row.sku == demoLaunch.sku) = 1 ∧
      (⟨demoLaunch.sku, demoLaunch.created_at.date, 0, 0, 0⟩ : PerfRow) ∈
        productPerformanceQuery demoLaunches demoSales ⟨2024, 1, 1⟩ ⟨2025, 8, 31⟩) ∧
    ((launchPeriodQuery demoLaunches demoSales ⟨2024, 1, 1⟩ ⟨2025, 8, 31⟩).countP
        (fun row => row.sku == demoLaunch.sku) = 1 ∧
      (⟨demoLaunch.sku, demoLaunch.created_at.date, 0, 0⟩ : LaunchRow) ∈
        launchPeriodQuery demoLaunches demoSales ⟨2024, 1, 1⟩ ⟨2025, 8, 31⟩) := by
  have h := join_completeness demoLaunches demoSales ⟨2024, 1, 1⟩ ⟨2025, 8, 31⟩
    ⟨2024, 1, 1⟩ ⟨2025, 8, 31⟩ (by decide)
  have hp := h.1 demoLaunch (by decide)
  have hl := h.2 demoLaunch (by decide)
  refine ⟨⟨hp.1, hp.2 (by decide)⟩, ⟨?_, hl.2 (by decide) (by decide)⟩⟩
  rw [hl.1]
  decide

end SuncoAnalytics
